import Mathlib

/-!
Verification development for the Veritas label-analysis pipeline.

JavaScript numbers are embedded as `ℚ`, JS `Math.round` as Mathlib's
`round` (both compute `⌊x + 1/2⌋`), and possibly-missing JS object fields
as `Option` values.  JS truthiness on numbers (`0` is falsy) is made
explicit through `jsTruthy` / `jsNumOr`.
-/

/-- JS truthiness of a possibly-missing numeric field: `undefined`/`null`
and `0` are falsy, every other number is truthy. -/
def jsTruthy (x : Option ℚ) : Bool :=
  match x with
  | none => false
  | some v => v != 0

/-- Embedding of the JS idiom `x || d` on a possibly-missing numeric
field: the field's value when truthy, otherwise the default `d`. -/
def jsNumOr (x : Option ℚ) (d : ℚ) : ℚ :=
  match x with
  | none => d
  | some v => if v = 0 then d else v

/-- Embedding of the JS idiom `x || d` for a possibly-missing string
field: the string when present and non-empty, otherwise `d`. -/
def jsStrOr (x : Option String) (d : String) : String :=
  match x with
  | none => d
  | some s => if s = "" then d else s

/-! ## Recommendation levels (C1)

`recommendation_level` of an `AnalysisResult` as described by the spec,
corroborated by the `daily_analysis_stats` SQL view of the repository's
schema, which buckets stored `overall_score` values with the same cut
points. -/

/-- The three recommendation levels. -/
inductive RecLevel where
  | safe
  | moderate
  | avoid
deriving DecidableEq, Repr

/-- Numeric rank of a recommendation level, used to state monotonicity
(`avoid < moderate < safe`). -/
def RecLevel.rank : RecLevel → ℕ
  | .avoid => 0
  | .moderate => 1
  | .safe => 2

/-- Modelled from the spec: the Result Assembler's map from
`overall_score` to `recommendation_level` (the backend assembler module
is not part of the available sources); fixed cut points: a score of 75 or
more is `safe`, a score from 50 to 74 is `moderate`, below 50 is
`avoid`. -/
def recommendation_level (score : ℚ) : RecLevel :=
  if 75 ≤ score then .safe
  else if 50 ≤ score then .moderate
  else .avoid

/-- From the `daily_analysis_stats` SQL view: the `safe_products`
bucket counts rows with `overall_score >= 75`. -/
def statsSafe (score : ℚ) : Bool := decide (75 ≤ score)

/-- From the `daily_analysis_stats` SQL view: the `moderate_products`
bucket counts rows with `overall_score >= 50 AND overall_score < 75`. -/
def statsModerate (score : ℚ) : Bool := decide (50 ≤ score) && decide (score < 75)

/-- From the `daily_analysis_stats` SQL view: the `avoid_products`
bucket counts rows with `overall_score < 50`. -/
def statsAvoid (score : ℚ) : Bool := decide (score < 50)

/-! ## NutritionTable daily values (C9)

Embedding of `NutritionTable`'s `nutritionData` and
`vitaminsAndMinerals` arrays: each row carries the rendered value
(`field || 0`), and the percent-daily-value entry
`field ? Math.round((field / DEN) * 100) : 0` (or `null` where the
component renders no DV). -/

/-- The `nutritionFacts` object consumed by `NutritionTable`; every
field may be absent. -/
structure NutritionFacts where
  calories : Option ℚ := none
  total_fat : Option ℚ := none
  saturated_fat : Option ℚ := none
  trans_fat : Option ℚ := none
  cholesterol : Option ℚ := none
  sodium : Option ℚ := none
  total_carbs : Option ℚ := none
  dietary_fiber : Option ℚ := none
  total_sugars : Option ℚ := none
  sugars : Option ℚ := none
  added_sugars : Option ℚ := none
  protein : Option ℚ := none
  vitamin_d : Option ℚ := none
  calcium : Option ℚ := none
  iron : Option ℚ := none
  potassium : Option ℚ := none
deriving Repr

/-- One row of the `nutritionData` / `vitaminsAndMinerals` arrays:
key, displayed value, and percent daily value (`none` when the component
defines no DV for the row). -/
structure NutriRow where
  key : String
  value : ℚ
  dv : Option ℤ
deriving Repr

/-- The DV expression used throughout `NutritionTable`:
`field ? Math.round((field / den) * 100) : 0`. -/
def dvExpr (x : Option ℚ) (den : ℚ) : ℤ :=
  if jsTruthy x then round ((jsNumOr x 0) / den * 100) else 0

/-- Embedding of the `nutritionData` array literal of `NutritionTable`. -/
def nutritionData (nf : NutritionFacts) : List NutriRow :=
  [ ⟨"calories", jsNumOr nf.calories 0, none⟩,
    ⟨"total_fat", jsNumOr nf.total_fat 0, some (dvExpr nf.total_fat 65)⟩,
    ⟨"saturated_fat", jsNumOr nf.saturated_fat 0, some (dvExpr nf.saturated_fat 20)⟩,
    ⟨"trans_fat", jsNumOr nf.trans_fat 0, none⟩,
    ⟨"cholesterol", jsNumOr nf.cholesterol 0, some (dvExpr nf.cholesterol 300)⟩,
    ⟨"sodium", jsNumOr nf.sodium 0, some (dvExpr nf.sodium 2300)⟩,
    ⟨"total_carbs", jsNumOr nf.total_carbs 0, some (dvExpr nf.total_carbs 300)⟩,
    ⟨"dietary_fiber", jsNumOr nf.dietary_fiber 0, some (dvExpr nf.dietary_fiber 25)⟩,
    ⟨"total_sugars", jsNumOr nf.total_sugars (jsNumOr nf.sugars 0), none⟩,
    ⟨"added_sugars", jsNumOr nf.added_sugars 0, some (dvExpr nf.added_sugars 50)⟩,
    ⟨"protein", jsNumOr nf.protein 0, some (dvExpr nf.protein 50)⟩ ]

/-- Embedding of the `vitaminsAndMinerals` array literal of
`NutritionTable`. -/
def vitaminsAndMinerals (nf : NutritionFacts) : List NutriRow :=
  [ ⟨"vitamin_d", jsNumOr nf.vitamin_d 0, some (dvExpr nf.vitamin_d 20)⟩,
    ⟨"calcium", jsNumOr nf.calcium 0, some (dvExpr nf.calcium 1300)⟩,
    ⟨"iron", jsNumOr nf.iron 0, some (dvExpr nf.iron 18)⟩,
    ⟨"potassium", jsNumOr nf.potassium 0, some (dvExpr nf.potassium 4700)⟩ ]

/-- Percent daily value shown for a given row key, looked up in the two
arrays as the component renders them. -/
def dvLookup (nf : NutritionFacts) (k : String) : Option (Option ℤ) :=
  ((nutritionData nf ++ vitaminsAndMinerals nf).find? (fun r => r.key == k)).map (·.dv)

/-! ## AnalysisLayout display defaults (C10) -/

/-- The `health_score` object of an analyze response. -/
structure HealthScore where
  score : ℚ
  level : String
deriving DecidableEq, Repr

/-- The `ai_recommendation` object of an analyze response (only the
field the layout reads). -/
structure AIRecommendation where
  level : Option String := none
deriving Repr

/-- The `scientific_analysis` object of an analyze response (only the
fields the layout reads). -/
structure ScientificAnalysis where
  nova_classification : Option ℚ := none
  nutrient_density_score : Option ℚ := none
  additive_risk_score : Option ℚ := none
  ingredient_complexity_index : Option ℚ := none
deriving Repr

/-- The analyze response as consumed by `AnalysisLayout` (only the
fields relevant to the score / key-metric displays). -/
structure AnalysisData where
  health_score : Option HealthScore := none
  overall_score : Option ℚ := none
  overallScore : Option ℚ := none
  ai_recommendation : Option AIRecommendation := none
  scientific_analysis : Option ScientificAnalysis := none
deriving Repr

/-- `AnalysisLayout`'s `healthScore` extraction:
`analysisData?.health_score || ⦃score: overall_score || overallScore || 50,
level: ai_recommendation?.level || 'moderate'⦄` (a JS object is always
truthy, so a present `health_score` is taken as-is). -/
def healthScoreOf (a : AnalysisData) : HealthScore :=
  match a.health_score with
  | some hs => hs
  | none =>
    { score := jsNumOr a.overall_score (jsNumOr a.overallScore 50),
      level := jsStrOr (a.ai_recommendation.bind (·.level)) "moderate" }

/-- `AnalysisLayout`'s `scientificAnalysis` extraction:
`analysisData?.scientific_analysis || ⦃⦄`. -/
def scientificAnalysisOf (a : AnalysisData) : ScientificAnalysis :=
  a.scientific_analysis.getD {}

/-- The NOVA group shown in the key-metrics grid and the RightRail quick
stats: `scientificAnalysis.nova_classification || 4`. -/
def novaDisplay (a : AnalysisData) : ℚ :=
  jsNumOr (scientificAnalysisOf a).nova_classification 4

/-- The nutrient-density figure shown in the key-metrics grid and the
RightRail quick stats: `scientificAnalysis.nutrient_density_score || 0`. -/
def nutrientDensityDisplay (a : AnalysisData) : ℚ :=
  jsNumOr (scientificAnalysisOf a).nutrient_density_score 0

/-- The additive-risk figure shown in the key-metrics grid:
`scientificAnalysis.additive_risk_score || 0`. -/
def additiveRiskDisplay (a : AnalysisData) : ℚ :=
  jsNumOr (scientificAnalysisOf a).additive_risk_score 0

/-! # Theorems -/

/-- C1: `recommendation_level` is a pure step function of
`overall_score` with fixed cut points 75 and 50: a score of 75 or more
maps to `safe`, a score in [50, 75) maps to `moderate`, a score below 50
maps to `avoid`; it is monotone in the score, and it agrees with the
buckets of the repository's `daily_analysis_stats` SQL view. -/
theorem recommendation_level_step_monotone :
    (∀ s : ℚ, 75 ≤ s → recommendation_level s = .safe) ∧
    (∀ s : ℚ, 50 ≤ s → s < 75 → recommendation_level s = .moderate) ∧
    (∀ s : ℚ, s < 50 → recommendation_level s = .avoid) ∧
    (∀ s t : ℚ, s ≤ t →
      (recommendation_level s).rank ≤ (recommendation_level t).rank) ∧
    (∀ s : ℚ, (recommendation_level s = .safe ↔ statsSafe s = true) ∧
      (recommendation_level s = .moderate ↔ statsModerate s = true) ∧
      (recommendation_level s = .avoid ↔ statsAvoid s = true)) := by
  refine ⟨?_, ?_, ?_, ?_, ?_⟩
  · intro s hs
    simp [recommendation_level, hs]
  · intro s h50 h75
    simp [recommendation_level, h50, not_le.2 h75]
  · intro s h
    have h75 : ¬ 75 ≤ s := by linarith
    have h50 : ¬ 50 ≤ s := by linarith
    simp [recommendation_level, h75, h50]
  · intro s t hst
    unfold recommendation_level
    split_ifs <;> simp [RecLevel.rank] <;> linarith
  · intro s
    unfold recommendation_level statsSafe statsModerate statsAvoid
    by_cases h1 : 75 ≤ s
    · have hn : ¬ s < 75 := not_lt.mpr h1
      have hn2 : ¬ s < 50 := by linarith
      have h50 : 50 ≤ s := by linarith
      simp [h1, hn, hn2, h50]
    · by_cases h2 : 50 ≤ s
      · have hl : s < 75 := not_le.mp h1
        have hn2 : ¬ s < 50 := not_lt.mpr h2
        simp [h1, h2, hl, hn2]
      · have hl : s < 50 := not_le.mp h2
        simp [h1, h2, hl]

/-- Closed-form check of C1 at the boundary scores 75, 74, 49. -/
theorem recommendation_level_step_monotone_witness :
    recommendation_level 75 = .safe ∧
    recommendation_level 74 = .moderate ∧
    recommendation_level 49 = .avoid := by
  obtain ⟨hsafe, hmod, havoid, _, _⟩ := recommendation_level_step_monotone
  exact ⟨hsafe 75 (by norm_num), hmod 74 (by norm_num) (by norm_num),
    havoid 49 (by norm_num)⟩

/-- C9: `NutritionTable` computes each percent daily value as
`round((value / denominator) * 100)` with the fixed denominators
total_fat 65 g, saturated_fat 20 g, cholesterol 300 mg, sodium 2300 mg,
total_carbs 300 g, dietary_fiber 25 g, added_sugars 50 g, protein 50 g,
vitamin_d 20 mcg, calcium 1300 mg, iron 18 mg, potassium 4700 mg, and
sets the DV entry to 0 for any absent, zero or otherwise falsy field. -/
theorem nutritionTable_dv_formula (nf : NutritionFacts) :
    (∀ v : ℚ, nf.total_fat = some v → v ≠ 0 →
      dvLookup nf "total_fat" = some (some (round (v / 65 * 100)))) ∧
    (jsTruthy nf.total_fat = false → dvLookup nf "total_fat" = some (some 0)) ∧
    (∀ v : ℚ, nf.saturated_fat = some v → v ≠ 0 →
      dvLookup nf "saturated_fat" = some (some (round (v / 20 * 100)))) ∧
    (jsTruthy nf.saturated_fat = false → dvLookup nf "saturated_fat" = some (some 0)) ∧
    (∀ v : ℚ, nf.cholesterol = some v → v ≠ 0 →
      dvLookup nf "cholesterol" = some (some (round (v / 300 * 100)))) ∧
    (jsTruthy nf.cholesterol = false → dvLookup nf "cholesterol" = some (some 0)) ∧
    (∀ v : ℚ, nf.sodium = some v → v ≠ 0 →
      dvLookup nf "sodium" = some (some (round (v / 2300 * 100)))) ∧
    (jsTruthy nf.sodium = false → dvLookup nf "sodium" = some (some 0)) ∧
    (∀ v : ℚ, nf.total_carbs = some v → v ≠ 0 →
      dvLookup nf "total_carbs" = some (some (round (v / 300 * 100)))) ∧
    (jsTruthy nf.total_carbs = false → dvLookup nf "total_carbs" = some (some 0)) ∧
    (∀ v : ℚ, nf.dietary_fiber = some v → v ≠ 0 →
      dvLookup nf "dietary_fiber" = some (some (round (v / 25 * 100)))) ∧
    (jsTruthy nf.dietary_fiber = false → dvLookup nf "dietary_fiber" = some (some 0)) ∧
    (∀ v : ℚ, nf.added_sugars = some v → v ≠ 0 →
      dvLookup nf "added_sugars" = some (some (round (v / 50 * 100)))) ∧
    (jsTruthy nf.added_sugars = false → dvLookup nf "added_sugars" = some (some 0)) ∧
    (∀ v : ℚ, nf.protein = some v → v ≠ 0 →
      dvLookup nf "protein" = some (some (round (v / 50 * 100)))) ∧
    (jsTruthy nf.protein = false → dvLookup nf "protein" = some (some 0)) ∧
    (∀ v : ℚ, nf.vitamin_d = some v → v ≠ 0 →
      dvLookup nf "vitamin_d" = some (some (round (v / 20 * 100)))) ∧
    (jsTruthy nf.vitamin_d = false → dvLookup nf "vitamin_d" = some (some 0)) ∧
    (∀ v : ℚ, nf.calcium = some v → v ≠ 0 →
      dvLookup nf "calcium" = some (some (round (v / 1300 * 100)))) ∧
    (jsTruthy nf.calcium = false → dvLookup nf "calcium" = some (some 0)) ∧
    (∀ v : ℚ, nf.iron = some v → v ≠ 0 →
      dvLookup nf "iron" = some (some (round (v / 18 * 100)))) ∧
    (jsTruthy nf.iron = false → dvLookup nf "iron" = some (some 0)) ∧
    (∀ v : ℚ, nf.potassium = some v → v ≠ 0 →
      dvLookup nf "potassium" = some (some (round (v / 4700 * 100)))) ∧
    (jsTruthy nf.potassium = false → dvLookup nf "potassium" = some (some 0)) := by
  constructor
  · intro v hv hnz
    simp [dvLookup, nutritionData, vitaminsAndMinerals, dvExpr, jsTruthy, jsNumOr, hv, hnz]
  refine ⟨?_, ?_⟩
  · intro h
    simp [dvLookup, nutritionData, vitaminsAndMinerals, dvExpr, h]
  repeat' constructor
  all_goals
    first
    | (intro v hv hnz
       simp [dvLookup, nutritionData, vitaminsAndMinerals, dvExpr, jsTruthy, jsNumOr, hv, hnz])
    | (intro h
       simp [dvLookup, nutritionData, vitaminsAndMinerals, dvExpr, h])

/-- Closed-form check of C9: sodium 460 mg gives `round(460/2300*100) = 20` %,
and an absent protein field gives a 0 % DV entry. -/
theorem nutritionTable_dv_formula_witness :
    dvLookup { sodium := some 460 } "sodium" = some (some 20) ∧
    dvLookup { sodium := some 460 } "protein" = some (some 0) := by
  have h := nutritionTable_dv_formula { sodium := some 460 }
  obtain ⟨-, -, -, -, -, -, hsod, -, -, -, -, -, -, -, -, hprot, -⟩ := h
  refine ⟨?_, ?_⟩
  · have := hsod 460 rfl (by norm_num)
    rw [this]
    norm_num [round_eq]
  · exact hprot rfl

/-- C10: when the analyze response omits the analysis fields, the
dashboard substitutes fixed defaults at display time: a missing
`health_score` (with no `overall_score` / `overallScore` /
`ai_recommendation.level` either) renders as score 50 and level
"moderate"; a missing `nova_classification` renders as NOVA group 4;
missing `nutrient_density_score` and `additive_risk_score` render as 0 —
both when `scientific_analysis` is absent entirely and when only the
individual field is absent. -/
theorem analysisLayout_display_defaults (a : AnalysisData)
    (h1 : a.health_score = none) (h2 : a.overall_score = none)
    (h3 : a.overallScore = none) (h4 : a.ai_recommendation = none) :
    healthScoreOf a = { score := 50, level := "moderate" } ∧
    (a.scientific_analysis = none →
      novaDisplay a = 4 ∧ nutrientDensityDisplay a = 0 ∧ additiveRiskDisplay a = 0) ∧
    (∀ sa, a.scientific_analysis = some sa →
      (sa.nova_classification = none → novaDisplay a = 4) ∧
      (sa.nutrient_density_score = none → nutrientDensityDisplay a = 0) ∧
      (sa.additive_risk_score = none → additiveRiskDisplay a = 0)) := by
  refine ⟨?_, ?_, ?_⟩
  · simp [healthScoreOf, h1, h2, h3, h4, jsNumOr, jsStrOr]
  · intro h5
    simp [novaDisplay, nutrientDensityDisplay, additiveRiskDisplay,
      scientificAnalysisOf, h5, jsNumOr]
  · intro sa hsa
    refine ⟨fun hn => ?_, fun hn => ?_, fun hn => ?_⟩ <;>
      simp [novaDisplay, nutrientDensityDisplay, additiveRiskDisplay,
        scientificAnalysisOf, hsa, hn, jsNumOr]

/-- Closed-form check of C10 on the fully-empty analyze response. -/
theorem analysisLayout_display_defaults_witness :
    healthScoreOf {} = { score := 50, level := "moderate" } ∧
    novaDisplay {} = 4 ∧ nutrientDensityDisplay {} = 0 ∧ additiveRiskDisplay {} = 0 := by
  obtain ⟨hhs, hrest, -⟩ :=
    analysisLayout_display_defaults {} rfl rfl rfl rfl
  exact ⟨hhs, hrest rfl⟩

/-! ## Extraction tier chain (C3, C4)

The backend OCR module (`app/core/ocr_unified.py`) is not among the
available sources; the chain is modelled from the spec and from the
repository's description of the multi-tier pipeline (catalog lookup by
barcode/name, then remote managed OCR inference, then local OCR). -/

/-- Confidence label attached to a raw extraction attempt. -/
inductive ConfidenceLabel where
  | low
  | medium
  | high
deriving DecidableEq, Repr

/-- Modelled from the spec: the three extraction tiers of the chain, in
their canonical roles (catalog lookup by barcode/name, remote managed
OCR inference, local OCR engine). -/
inductive Tier where
  | catalog
  | remoteOCR
  | localOCR
deriving DecidableEq, Repr

/-- A raw extraction produced by one tier attempt. -/
structure RawExtraction where
  source_tier : Tier
  text : String
  structured_hint : Option (List (String × ℚ)) := none
  confidence_label : Option ConfidenceLabel := none
deriving DecidableEq, Repr

/-- Outcome of one tier's `extract`: either the tier is unavailable
(network error, missing credentials, quota, cold start) or it produced a
raw extraction. -/
inductive TierOutcome where
  | unavailable (reason : String)
  | extracted (r : RawExtraction)
deriving DecidableEq, Repr

/-- Outcome of the confidence evaluator on a raw extraction. -/
inductive EvalOutcome where
  | accept
  | reject (reason : String)
deriving DecidableEq, Repr

/-- Modelled from the spec: the statically configured tier order,
highest-value first — catalog lookup, then remote OCR, then local OCR. -/
def tierOrder : List Tier := [.catalog, .remoteOCR, .localOCR]

/-- Modelled from the spec: walk the tiers in order; an unavailable tier
is logged (its reason recorded) and skipped; an extracted result is
gated by the confidence evaluator — accepted stops the walk, rejected
records the reason and falls through; an exhausted list fails with the
accumulated per-tier failure reasons. -/
def runChainFrom (extract : Tier → TierOutcome)
    (evaluate : RawExtraction → EvalOutcome) :
    List Tier → List (Tier × String) → Except (List (Tier × String)) RawExtraction
  | [], failures => .error failures
  | t :: rest, failures =>
    match extract t with
    | .unavailable reason =>
      runChainFrom extract evaluate rest (failures ++ [(t, reason)])
    | .extracted r =>
      match evaluate r with
      | .accept => .ok r
      | .reject reason =>
        runChainFrom extract evaluate rest (failures ++ [(t, reason)])

/-- Modelled from the spec: `analyze`'s extraction phase — run the tier
chain over the canonical tier order; the `Except.error` case is the
`ExtractionExhaustedError` carrying the attempted tiers and their
per-tier failure reasons. -/
def analyzeExtraction (extract : Tier → TierOutcome)
    (evaluate : RawExtraction → EvalOutcome) :
    Except (List (Tier × String)) RawExtraction :=
  runChainFrom extract evaluate tierOrder []

/-- The failure reason a tier contributes when it does not produce an
accepted result: its unavailability reason, or the evaluator's rejection
reason; `none` when the tier's result is accepted. -/
def tierFailure (extract : Tier → TierOutcome)
    (evaluate : RawExtraction → EvalOutcome) (t : Tier) : Option String :=
  match extract t with
  | .unavailable reason => some reason
  | .extracted r =>
    match evaluate r with
    | .accept => none
    | .reject reason => some reason

/-- The failure reason of a failing tier (defaulting to the empty string
for an accepted tier, where it is never used). -/
def tierReason (extract : Tier → TierOutcome)
    (evaluate : RawExtraction → EvalOutcome) (t : Tier) : String :=
  (tierFailure extract evaluate t).getD ""

/-- Chain step: an unavailable tier is skipped and its reason recorded. -/
theorem runChainFrom_step_unavail (extract : Tier → TierOutcome)
    (evaluate : RawExtraction → EvalOutcome) (t : Tier) (rest : List Tier)
    (acc : List (Tier × String)) (reason : String)
    (hx : extract t = .unavailable reason) :
    runChainFrom extract evaluate (t :: rest) acc =
      runChainFrom extract evaluate rest (acc ++ [(t, reason)]) := by
  conv_lhs => rw [runChainFrom.eq_def]
  simp [hx]

/-- Chain step: an accepted extraction stops the walk. -/
theorem runChainFrom_step_accept (extract : Tier → TierOutcome)
    (evaluate : RawExtraction → EvalOutcome) (t : Tier) (rest : List Tier)
    (acc : List (Tier × String)) (r : RawExtraction)
    (hx : extract t = .extracted r) (he : evaluate r = .accept) :
    runChainFrom extract evaluate (t :: rest) acc = .ok r := by
  conv_lhs => rw [runChainFrom.eq_def]
  simp [hx, he]

/-- Chain step: a rejected extraction records the evaluator's reason and
falls through. -/
theorem runChainFrom_step_reject (extract : Tier → TierOutcome)
    (evaluate : RawExtraction → EvalOutcome) (t : Tier) (rest : List Tier)
    (acc : List (Tier × String)) (r : RawExtraction) (reason : String)
    (hx : extract t = .extracted r) (he : evaluate r = .reject reason) :
    runChainFrom extract evaluate (t :: rest) acc =
      runChainFrom extract evaluate rest (acc ++ [(t, reason)]) := by
  conv_lhs => rw [runChainFrom.eq_def]
  simp [hx, he]

/-- If every tier in the remaining list fails (unavailable or rejected),
the chain returns the exhaustion error listing the already-accumulated
failures followed by the remaining tiers' failures in order. -/
theorem runChainFrom_all_fail (extract : Tier → TierOutcome)
    (evaluate : RawExtraction → EvalOutcome) :
    ∀ (ts : List Tier) (acc : List (Tier × String)),
      (∀ t ∈ ts, (tierFailure extract evaluate t).isSome) →
      runChainFrom extract evaluate ts acc =
        .error (acc ++ ts.map fun t => (t, tierReason extract evaluate t)) := by
  intro ts
  induction ts with
  | nil => intro acc _; simp [runChainFrom]
  | cons t rest ih =>
    intro acc h
    have ht := h t (by simp)
    have hrest : ∀ u ∈ rest, (tierFailure extract evaluate u).isSome := by
      intro u hu; exact h u (by simp [hu])
    cases hx : extract t with
    | unavailable reason =>
      rw [runChainFrom_step_unavail extract evaluate t rest acc reason hx, ih _ hrest]
      simp [tierReason, tierFailure, hx]
    | extracted r =>
      cases he : evaluate r with
      | accept =>
        exfalso
        simp [tierFailure, hx, he] at ht
      | reject reason =>
        rw [runChainFrom_step_reject extract evaluate t rest acc r reason hx he, ih _ hrest]
        simp [tierReason, tierFailure, hx, he]

/-- Inversion: whenever the chain returns the exhaustion error, every
remaining tier failed and the error lists the accumulated failures
followed by exactly those tiers, in order, with their reasons. -/
theorem runChainFrom_error_inv (extract : Tier → TierOutcome)
    (evaluate : RawExtraction → EvalOutcome) :
    ∀ (ts : List Tier) (acc fs : List (Tier × String)),
      runChainFrom extract evaluate ts acc = .error fs →
      (∀ t ∈ ts, (tierFailure extract evaluate t).isSome) ∧
      fs = acc ++ ts.map fun t => (t, tierReason extract evaluate t) := by
  intro ts
  induction ts with
  | nil =>
    intro acc fs h
    simp [runChainFrom] at h
    simp [h]
  | cons t rest ih =>
    intro acc fs h
    cases hx : extract t with
    | unavailable reason =>
      rw [runChainFrom_step_unavail extract evaluate t rest acc reason hx] at h
      obtain ⟨hall, hfs⟩ := ih _ _ h
      constructor
      · intro u hu
        rcases List.mem_cons.mp hu with rfl | hu
        · simp [tierFailure, hx]
        · exact hall u hu
      · simp [hfs, tierReason, tierFailure, hx]
    | extracted r =>
      cases he : evaluate r with
      | accept =>
        rw [runChainFrom_step_accept extract evaluate t rest acc r hx he] at h
        exact absurd h (by simp)
      | reject reason =>
        rw [runChainFrom_step_reject extract evaluate t rest acc r reason hx he] at h
        obtain ⟨hall, hfs⟩ := ih _ _ h
        constructor
        · intro u hu
          rcases List.mem_cons.mp hu with rfl | hu
          · simp [tierFailure, hx, he]
          · exact hall u hu
        · simp [hfs, tierReason, tierFailure, hx, he]

/-- C3: the tier chain consults catalog lookup, then remote OCR, then
local OCR, in that fixed order; a tier whose result is accepted stops
the walk immediately; and when tier 1 (catalog) raises
`TierUnavailable` while tier 2 (remote OCR) returns an accept-worthy
result tagged with its own tier, the chain's output provenance tier is
tier 2. -/
theorem tierChain_fallback_provenance (extract : Tier → TierOutcome)
    (evaluate : RawExtraction → EvalOutcome) :
    tierOrder = [.catalog, .remoteOCR, .localOCR] ∧
    (∀ r, extract .catalog = .extracted r → evaluate r = .accept →
      analyzeExtraction extract evaluate = .ok r) ∧
    (∀ reason r, extract .catalog = .unavailable reason →
      extract .remoteOCR = .extracted r →
      r.source_tier = .remoteOCR →
      evaluate r = .accept →
      ∃ out, analyzeExtraction extract evaluate = .ok out ∧
        out.source_tier = .remoteOCR) := by
  refine ⟨rfl, ?_, ?_⟩
  · intro r hx he
    simp [analyzeExtraction, tierOrder, runChainFrom, hx, he]
  · intro reason r hx1 hx2 htag he
    refine ⟨r, ?_, htag⟩
    simp [analyzeExtraction, tierOrder, runChainFrom, hx1, hx2, he]

/-- C4: if every tier either raises `TierUnavailable` or has its result
rejected by the confidence evaluator, the extraction fails with the
exhaustion error carrying the attempted tiers and their per-tier failure
reasons, in the order tried — and any exhaustion error the chain ever
emits lists exactly the attempted tiers in order, so this is the only
way tier failures surface. -/
theorem tierChain_exhaustion (extract : Tier → TierOutcome)
    (evaluate : RawExtraction → EvalOutcome)
    (h : ∀ t ∈ tierOrder, (tierFailure extract evaluate t).isSome) :
    analyzeExtraction extract evaluate =
      .error (tierOrder.map fun t => (t, tierReason extract evaluate t)) ∧
    (∀ fs, analyzeExtraction extract evaluate = .error fs →
      fs = tierOrder.map fun t => (t, tierReason extract evaluate t)) := by
  constructor
  · simpa using runChainFrom_all_fail extract evaluate tierOrder [] h
  · intro fs hfs
    simpa using (runChainFrom_error_inv extract evaluate tierOrder [] fs hfs).2

/-- A demonstration tier environment: the catalog lookup is down with a
network error, the remote OCR tier extracts a label text tagged with its
own tier, and the local OCR tier also works. -/
def demoExtract : Tier → TierOutcome
  | .catalog => .unavailable "network error"
  | .remoteOCR =>
    .extracted { source_tier := .remoteOCR,
                 text := "Nutrition Facts Sodium 460mg Protein 3g",
                 confidence_label := some .high }
  | .localOCR =>
    .extracted { source_tier := .localOCR, text := "Nutrition Facts" }

/-- A demonstration evaluator that accepts everything. -/
def demoAccept : RawExtraction → EvalOutcome := fun _ => .accept

/-- A demonstration tier environment in which no tier yields an
acceptable result: two tiers are unavailable and the last produces text
too sparse for the evaluator. -/
def demoExtractAllDown : Tier → TierOutcome
  | .catalog => .unavailable "network error"
  | .remoteOCR => .unavailable "quota exceeded"
  | .localOCR =>
    .extracted { source_tier := .localOCR, text := "ab" }

/-- A demonstration evaluator rejecting texts shorter than 10
characters as too sparse. -/
def demoRejectShort : RawExtraction → EvalOutcome := fun r =>
  if r.text.length < 10 then .reject "TooSparse" else .accept

/-- Closed-form check of C3: with the catalog tier unavailable and the
remote OCR tier accepted, the chain's output provenance is the remote
OCR tier. -/
theorem tierChain_fallback_provenance_witness :
    ∃ out, analyzeExtraction demoExtract demoAccept = .ok out ∧
      out.source_tier = .remoteOCR :=
  (tierChain_fallback_provenance demoExtract demoAccept).2.2
    "network error"
    { source_tier := .remoteOCR,
      text := "Nutrition Facts Sodium 460mg Protein 3g",
      confidence_label := some .high }
    rfl rfl rfl rfl

/-- Closed-form check of C4: with every tier unavailable or rejected,
the extraction fails with the three attempted tiers and their reasons in
order. -/
theorem tierChain_exhaustion_witness :
    analyzeExtraction demoExtractAllDown demoRejectShort =
      .error [(.catalog, "network error"), (.remoteOCR, "quota exceeded"),
        (.localOCR, "TooSparse")] := by
  have h := tierChain_exhaustion demoExtractAllDown demoRejectShort (by decide)
  rw [h.1]
  rfl

/-! ## Nutrition parser (C7, C8)

The backend parser module (`app/core/parser_enhanced.py`) is not among
the available sources; the parser is modelled from the spec: line-based
scanning, per-field recognition rules pairing label synonyms with a
following numeric token, first match per field wins, unit normalization
(mg→g), individual numeric failures leave the field absent and add a
non-fatal warning. -/

/-- Is the needle an initial segment of the hay (char lists)? -/
def leadsCL : List Char → List Char → Bool
  | [], _ => true
  | _ :: _, [] => false
  | a :: as, b :: bs => a == b && leadsCL as bs

/-- The suffix of the hay remaining after the first occurrence of the
needle, `none` when the needle does not occur. -/
def afterFirst (needle : List Char) : List Char → Option (List Char)
  | [] => if needle.isEmpty then some [] else none
  | h :: t =>
    if leadsCL needle (h :: t) then some ((h :: t).drop needle.length)
    else afterFirst needle t

/-- Does the needle occur contiguously in the hay? -/
def occursCL (needle hay : List Char) : Bool :=
  (afterFirst needle hay).isSome

/-- Value of a digit run (most significant first). -/
def digitsValAux (acc : ℕ) : List Char → ℕ
  | [] => acc
  | c :: cs => digitsValAux (acc * 10 + (c.toNat - '0'.toNat)) cs

/-- Modelled from the spec: parse the first numeric token of a character
stream (optional decimal part), normalizing an immediately following
`mg` unit to grams; `none` when the stream holds no digits — the
per-field numeric-parse failure case. -/
def parseNumTok (cs : List Char) : Option ℚ :=
  let tail := cs.dropWhile (fun c => !c.isDigit)
  match tail with
  | [] => none
  | _ =>
    let ds := tail.takeWhile Char.isDigit
    let rest := tail.dropWhile Char.isDigit
    let ip : ℚ := (digitsValAux 0 ds : ℕ)
    let vr : ℚ × List Char :=
      match rest with
      | '.' :: r2 =>
        let fs := r2.takeWhile Char.isDigit
        (ip + (digitsValAux 0 fs : ℕ) / ((10 : ℚ) ^ fs.length),
          r2.dropWhile Char.isDigit)
      | _ => (ip, rest)
    let rest3 := vr.2.dropWhile (fun c => c == ' ')
    if leadsCL ['m', 'g'] rest3 then some (vr.1 / 1000) else some vr.1

/-- The nutrition fields the parser recognizes. -/
inductive NField where
  | calories
  | total_fat
  | saturated_fat
  | sodium
  | total_carbs
  | dietary_fiber
  | total_sugars
  | added_sugars
  | protein
deriving DecidableEq, Repr

/-- Every recognized field, in label order. -/
def allFields : List NField :=
  [.calories, .total_fat, .saturated_fat, .sodium, .total_carbs,
   .dietary_fiber, .total_sugars, .added_sugars, .protein]

/-- Modelled from the spec: the label synonyms of each per-field
recognition rule (lower case). -/
def NField.synonyms : NField → List String
  | .calories => ["calories"]
  | .total_fat => ["total fat", "fat"]
  | .saturated_fat => ["saturated fat"]
  | .sodium => ["sodium"]
  | .total_carbs => ["total carbohydrate", "total carbs"]
  | .dietary_fiber => ["dietary fiber", "fiber"]
  | .total_sugars => ["total sugars", "sugars"]
  | .added_sugars => ["added sugars"]
  | .protein => ["protein"]

/-- The key naming a field inside a catalog structured hint. -/
def NField.key : NField → String
  | .calories => "calories"
  | .total_fat => "total_fat"
  | .saturated_fat => "saturated_fat"
  | .sodium => "sodium"
  | .total_carbs => "total_carbs"
  | .dietary_fiber => "dietary_fiber"
  | .total_sugars => "total_sugars"
  | .added_sugars => "added_sugars"
  | .protein => "protein"

/-- The typed nutrition-facts record the parser produces; an absent
field is tracked as `none` rather than a misleading zero. -/
structure NutritionRecord where
  calories : Option ℚ := none
  total_fat : Option ℚ := none
  saturated_fat : Option ℚ := none
  sodium : Option ℚ := none
  total_carbs : Option ℚ := none
  dietary_fiber : Option ℚ := none
  total_sugars : Option ℚ := none
  added_sugars : Option ℚ := none
  protein : Option ℚ := none
deriving DecidableEq, Repr

/-- Field accessor of a `NutritionRecord`. -/
def NutritionRecord.get (r : NutritionRecord) : NField → Option ℚ
  | .calories => r.calories
  | .total_fat => r.total_fat
  | .saturated_fat => r.saturated_fat
  | .sodium => r.sodium
  | .total_carbs => r.total_carbs
  | .dietary_fiber => r.dietary_fiber
  | .total_sugars => r.total_sugars
  | .added_sugars => r.added_sugars
  | .protein => r.protein

/-- Split a character stream at newline characters. -/
def splitLinesCL : List Char → List (List Char)
  | [] => [[]]
  | c :: cs =>
    if c == '\n' then [] :: splitLinesCL cs
    else
      match splitLinesCL cs with
      | [] => [[c]]
      | l :: ls => (c :: l) :: ls

/-- The label text as lower-cased character lines. -/
def toLines (text : String) : List (List Char) :=
  (splitLinesCL text.data).map (fun l => l.map Char.toLower)

/-- Modelled from the spec: the first line containing one of the
field's label synonyms — repeated matches for the same field keep the
first. -/
def findFieldLine (f : NField) (lines : List (List Char)) : Option (List Char) :=
  lines.find? (fun l => f.synonyms.any (fun syn => occursCL syn.data l))

/-- Modelled from the spec: a field's value from its first matching
line — the text following the first matching synonym, parsed as a
numeric token; `none` when no line matches or the numeric parse fails. -/
def parseFieldFrom (f : NField) (lines : List (List Char)) : Option ℚ :=
  (findFieldLine f lines).bind fun l =>
    (f.synonyms.find? (fun syn => occursCL syn.data l)).bind fun syn =>
      (afterFirst syn.data l).bind parseNumTok

/-- Non-fatal warning attached to a parse result for each nutrition
field whose label was recognized but whose numeric token could not
be parsed. -/
structure PartialParseWarning where
  field : NField
deriving DecidableEq, Repr

/-- Does field `f` warrant a `PartialParseWarning`: its label line was
found, yet no value could be extracted. -/
def fieldWarn (f : NField) (lines : List (List Char)) : Bool :=
  (findFieldLine f lines).isSome && (parseFieldFrom f lines).isNone

/-- The warnings of a parse over the given lines. -/
def parseWarnings (lines : List (List Char)) : List PartialParseWarning :=
  (allFields.filter (fieldWarn · lines)).map (⟨·⟩)

/-- The best-effort record extracted from free text: each field is
computed by its own recognition rule, independently of every other
field. -/
def recordFromText (lines : List (List Char)) : NutritionRecord :=
  { calories := parseFieldFrom .calories lines,
    total_fat := parseFieldFrom .total_fat lines,
    saturated_fat := parseFieldFrom .saturated_fat lines,
    sodium := parseFieldFrom .sodium lines,
    total_carbs := parseFieldFrom .total_carbs lines,
    dietary_fiber := parseFieldFrom .dietary_fiber lines,
    total_sugars := parseFieldFrom .total_sugars lines,
    added_sugars := parseFieldFrom .added_sugars lines,
    protein := parseFieldFrom .protein lines }

/-- Modelled from the spec: a structured hint from a catalog-lookup
tier is used directly, schema-validated and range-checked (negative
amounts are dropped). -/
def recordFromHint (h : List (String × ℚ)) : NutritionRecord :=
  let look : NField → Option ℚ := fun f =>
    ((h.find? (·.1 == f.key)).map (·.2)).bind fun v =>
      if 0 ≤ v then some v else none
  { calories := look .calories,
    total_fat := look .total_fat,
    saturated_fat := look .saturated_fat,
    sodium := look .sodium,
    total_carbs := look .total_carbs,
    dietary_fiber := look .dietary_fiber,
    total_sugars := look .total_sugars,
    added_sugars := look .added_sugars,
    protein := look .protein }

/-- Modelled from the spec: `parse(text, structured_hint?)` — a present
structured hint short-circuits free-text parsing; otherwise the text is
scanned line by line; the result is always a best-effort record plus
non-fatal warnings (the return type admits no failure). -/
def parseLabel (text : String) (hint : Option (List (String × ℚ))) :
    NutritionRecord × List PartialParseWarning :=
  match hint with
  | some h => (recordFromHint h, [])
  | none => (recordFromText (toLines text), parseWarnings (toLines text))

/-- C7: a numeric parse failure on an individual field never aborts the
parse — the parser's type is total, so every text yields a best-effort
record plus warnings; when field `f`'s label is recognized but its
number cannot be parsed, `f` is absent from the record, a
`PartialParseWarning` for `f` is attached, and every field (including
all others) still equals the value of its own independent recognition
rule, so only `f` is left absent by the failure. -/
theorem parser_partial_failure (text : String) (f : NField)
    (hrecog : (findFieldLine f (toLines text)).isSome)
    (hnum : parseFieldFrom f (toLines text) = none) :
    (parseLabel text none).1.get f = none ∧
    (⟨f⟩ : PartialParseWarning) ∈ (parseLabel text none).2 ∧
    ∀ g : NField, (parseLabel text none).1.get g = parseFieldFrom g (toLines text) := by
  refine ⟨?_, ?_, ?_⟩
  · cases f <;>
      simp [parseLabel, recordFromText, NutritionRecord.get, hnum]
  · have hf : f ∈ allFields := by cases f <;> simp [allFields]
    have hw : fieldWarn f (toLines text) = true := by
      simp [fieldWarn, hnum, hrecog]
    show (⟨f⟩ : PartialParseWarning) ∈ parseWarnings (toLines text)
    exact List.mem_map.mpr ⟨f, List.mem_filter.mpr ⟨hf, hw⟩, rfl⟩
  · intro g
    cases g <;> rfl

/-- Closed-form check of C7: in "Sodium abcmg / Protein 3g" the sodium
label is recognized, its OCR-garbled number fails to parse, the
resulting record leaves sodium absent with a warning, and the protein
field still parses to 3. -/
theorem parser_partial_failure_witness :
    (findFieldLine .sodium (toLines "Sodium abcmg\nProtein 3g")).isSome = true ∧
    parseFieldFrom .sodium (toLines "Sodium abcmg\nProtein 3g") = none ∧
    (parseLabel "Sodium abcmg\nProtein 3g" none).1.get .sodium = none ∧
    (⟨.sodium⟩ : PartialParseWarning) ∈ (parseLabel "Sodium abcmg\nProtein 3g" none).2 ∧
    (parseLabel "Sodium abcmg\nProtein 3g" none).1.get .protein = some 3 :=
  ⟨by decide, by decide,
    (parser_partial_failure "Sodium abcmg\nProtein 3g" .sodium (by decide) (by decide)).1,
    (parser_partial_failure "Sodium abcmg\nProtein 3g" .sodium (by decide) (by decide)).2.1,
    by decide⟩

/-- C8: the nutrition parser is deterministic — parsing equal texts
with equal optional structured hints yields identical
`NutritionRecord` values (and identical warning lists). -/
theorem parser_deterministic (t1 t2 : String)
    (h1 h2 : Option (List (String × ℚ)))
    (ht : t1 = t2) (hh : h1 = h2) :
    (parseLabel t1 h1).1 = (parseLabel t2 h2).1 ∧
    parseLabel t1 h1 = parseLabel t2 h2 := by
  subst ht
  subst hh
  exact ⟨rfl, rfl⟩

/-- Closed-form check of C8 on a concrete well-formed label text. -/
theorem parser_deterministic_witness :
    (parseLabel "Sodium 460mg\nTotal Sugars 12g\nProtein 3g" none).1 =
      (parseLabel "Sodium 460mg\nTotal Sugars 12g\nProtein 3g" none).1 ∧
    parseLabel "Sodium 460mg\nTotal Sugars 12g\nProtein 3g" none =
      parseLabel "Sodium 460mg\nTotal Sugars 12g\nProtein 3g" none :=
  parser_deterministic _ _ none none rfl rfl

/-! ## Ingredient classifier (C6)

The backend classifier (part of `app/core/food_scientist_analyzer.py`)
is not among the available sources; it is modelled from the spec:
case-insensitive substring matching of each ingredient against three
static lexicons, producing the derived sets `beneficial`, `concerning`
and `allergens`, with unmatched ingredients left unclassified. -/

/-- The derived ingredient sets. -/
structure IngredientClassification where
  beneficial : List String
  concerning : List String
  allergens : List String
deriving DecidableEq, Repr

/-- Lower-cased character form of a string. -/
def lowerCL (s : String) : List Char := s.data.map Char.toLower

/-- Modelled from the spec: a lexicon entry matches an ingredient when
the entry occurs as a case-insensitive substring of the ingredient. -/
def lexMatches (entry ingredient : String) : Bool :=
  occursCL (lowerCL entry) (lowerCL ingredient)

/-- Modelled from the spec: `classify(IngredientList)` — each derived
set collects the ingredients matched by the corresponding lexicon; the
sets are not mutually exclusive, and an ingredient matching no lexicon
lands in none of them. -/
def classify (benLex conLex allLex ings : List String) :
    IngredientClassification :=
  { beneficial := ings.filter fun i => benLex.any (lexMatches · i),
    concerning := ings.filter fun i => conLex.any (lexMatches · i),
    allergens := ings.filter fun i => allLex.any (lexMatches · i) }

/-- A character list is an initial segment of itself. -/
theorem leadsCL_self (l : List Char) : leadsCL l l = true := by
  induction l with
  | nil => rfl
  | cons a as ih => simp [leadsCL, ih]

/-- A character list occurs in itself. -/
theorem occursCL_self (l : List Char) : occursCL l l = true := by
  cases l with
  | nil => rfl
  | cons a as => simp [occursCL, afterFirst, leadsCL_self]

/-- C6: an ingredient of the list that exactly matches a lexicon entry
under case-insensitive comparison lands in the corresponding derived
set (in particular an exact allergen match appears in `allergens`);
exact matches are a special case of the case-insensitive substring
matching the sets are built from; and an ingredient matched by none of
the three lexicons appears in none of the three sets. -/
theorem classifier_membership (benLex conLex allLex ings : List String)
    (ing : String) (hing : ing ∈ ings) :
    (∀ e ∈ allLex, lowerCL e = lowerCL ing →
      ing ∈ (classify benLex conLex allLex ings).allergens) ∧
    (∀ e ∈ benLex, lowerCL e = lowerCL ing →
      ing ∈ (classify benLex conLex allLex ings).beneficial) ∧
    (∀ e ∈ conLex, lowerCL e = lowerCL ing →
      ing ∈ (classify benLex conLex allLex ings).concerning) ∧
    ((∀ e ∈ benLex, lexMatches e ing = false) →
      (∀ e ∈ conLex, lexMatches e ing = false) →
      (∀ e ∈ allLex, lexMatches e ing = false) →
      ing ∉ (classify benLex conLex allLex ings).beneficial ∧
      ing ∉ (classify benLex conLex allLex ings).concerning ∧
      ing ∉ (classify benLex conLex allLex ings).allergens) := by
  have hmatch : ∀ e : String, lowerCL e = lowerCL ing → lexMatches e ing = true := by
    intro e he
    unfold lexMatches
    rw [he]
    exact occursCL_self _
  refine ⟨?_, ?_, ?_, ?_⟩
  · intro e he hexact
    exact List.mem_filter.mpr
      ⟨hing, List.any_eq_true.mpr ⟨e, he, hmatch e hexact⟩⟩
  · intro e he hexact
    exact List.mem_filter.mpr
      ⟨hing, List.any_eq_true.mpr ⟨e, he, hmatch e hexact⟩⟩
  · intro e he hexact
    exact List.mem_filter.mpr
      ⟨hing, List.any_eq_true.mpr ⟨e, he, hmatch e hexact⟩⟩
  · intro hb hc ha
    refine ⟨?_, ?_, ?_⟩ <;> intro hmem
    · obtain ⟨-, hany⟩ := List.mem_filter.mp hmem
      obtain ⟨e, he, htrue⟩ := List.any_eq_true.mp hany
      exact absurd htrue (by simp [hb e he])
    · obtain ⟨-, hany⟩ := List.mem_filter.mp hmem
      obtain ⟨e, he, htrue⟩ := List.any_eq_true.mp hany
      exact absurd htrue (by simp [hc e he])
    · obtain ⟨-, hany⟩ := List.mem_filter.mp hmem
      obtain ⟨e, he, htrue⟩ := List.any_eq_true.mp hany
      exact absurd htrue (by simp [ha e he])

/-- A demonstration beneficial-compound lexicon. -/
def demoBeneficialLex : List String := ["fiber", "whole grain", "vitamin"]

/-- A demonstration concerning-additive lexicon. -/
def demoConcerningLex : List String :=
  ["red 40", "high fructose corn syrup", "aspartame"]

/-- A demonstration allergen lexicon (the eight major families). -/
def demoAllergenLex : List String :=
  ["peanut", "milk", "wheat", "soy", "egg", "fish", "shellfish", "tree nut"]

/-- Closed-form check of C6: the ingredient "Peanut" exactly matches
the allergen entry "peanut" case-insensitively and lands in
`allergens`, while "Water", matched by no lexicon, lands in no derived
set. -/
theorem classifier_membership_witness :
    "Peanut" ∈ (classify demoBeneficialLex demoConcerningLex demoAllergenLex
      ["Sugar", "Peanut", "Water"]).allergens ∧
    ("Water" ∉ (classify demoBeneficialLex demoConcerningLex demoAllergenLex
      ["Sugar", "Peanut", "Water"]).beneficial ∧
    "Water" ∉ (classify demoBeneficialLex demoConcerningLex demoAllergenLex
      ["Sugar", "Peanut", "Water"]).concerning ∧
    "Water" ∉ (classify demoBeneficialLex demoConcerningLex demoAllergenLex
      ["Sugar", "Peanut", "Water"]).allergens) :=
  ⟨(classifier_membership demoBeneficialLex demoConcerningLex demoAllergenLex
      ["Sugar", "Peanut", "Water"] "Peanut" (by decide)).1
      "peanut" (by decide) (by decide),
   (classifier_membership demoBeneficialLex demoConcerningLex demoAllergenLex
      ["Sugar", "Peanut", "Water"] "Water" (by decide)).2.2.2
      (by decide) (by decide) (by decide)⟩

/-! ## Scientific scoring engine (C2, C5)

The backend scoring module (`app/core/food_scientist_analyzer.py`) is
not among the available sources; the scores are modelled from the spec:
explicit named constants, weighted combinations normalized by fixed
daily reference denominators, every derived score clamped to [0, 100],
and the macronutrient balance computed from the 4/4/9 kcal-per-gram
caloric densities with the rounding remainder apportioned to the
largest component. -/

/-- Clamp a rational to the closed interval [0, 100]. -/
def clamp100 (x : ℚ) : ℚ := max 0 (min 100 x)

/-- Daily reference amount of protein (g). -/
def PROTEIN_DAILY_REF : ℚ := 50

/-- Daily reference amount of dietary fiber (g). -/
def FIBER_DAILY_REF : ℚ := 25

/-- Daily reference amount of added sugars (g). -/
def ADDED_SUGAR_DAILY_REF : ℚ := 50

/-- Daily reference amount of sodium (mg). -/
def SODIUM_DAILY_REF : ℚ := 2300

/-- Daily reference amount of saturated fat (g). -/
def SATFAT_DAILY_REF : ℚ := 20

/-- Positive weight of a beneficial nutrient in the density score. -/
def POSITIVE_NUTRIENT_WEIGHT : ℚ := 25

/-- Negative weight of a detrimental nutrient in the density score. -/
def NEGATIVE_NUTRIENT_WEIGHT : ℚ := 25

/-- Penalty per NOVA processing class in the overall blend. -/
def PROCESSING_PENALTY : ℚ := 5

/-- Weight of the nutrient-density score in the overall blend. -/
def DENSITY_BLEND_WEIGHT : ℚ := 1 / 2

/-- Value of a possibly-absent field for downstream math (missing
defaults to 0, tracked separately as unknown). -/
def valD (x : Option ℚ) : ℚ := x.getD 0

/-- Modelled from the spec: `nutrient_density_score` — a weighted
combination of protein and fiber (positive) versus added sugar, sodium
and saturated fat (negative), normalized by the named daily reference
denominators and clamped to [0, 100]. -/
def nutrient_density_score (r : NutritionRecord) : ℚ :=
  clamp100 (50
    + POSITIVE_NUTRIENT_WEIGHT * valD r.protein / PROTEIN_DAILY_REF
    + POSITIVE_NUTRIENT_WEIGHT * valD r.dietary_fiber / FIBER_DAILY_REF
    - NEGATIVE_NUTRIENT_WEIGHT * valD r.added_sugars / ADDED_SUGAR_DAILY_REF
    - NEGATIVE_NUTRIENT_WEIGHT * valD r.sodium / SODIUM_DAILY_REF
    - NEGATIVE_NUTRIENT_WEIGHT * valD r.saturated_fat / SATFAT_DAILY_REF)

/-- Modelled from the spec: `additive_risk_score` — proportional to the
severity-weighted count of concerning ingredients relative to the total
ingredient count, clamped to [0, 100] (0 when the list is empty). -/
def additive_risk_score (severitySum : ℚ) (totalCount : ℕ) : ℚ :=
  if totalCount = 0 then 0
  else clamp100 (100 * severitySum / totalCount)

/-- Modelled from the spec: `overall_score` — a weighted blend of the
nutrient-density score (positive) and the additive-risk score
(negative) minus a processing-class penalty, clamped to [0, 100]. -/
def overall_score (nds ars : ℚ) (processing_class : ℕ) : ℚ :=
  clamp100 (DENSITY_BLEND_WEIGHT * nds
    + (1 - DENSITY_BLEND_WEIGHT) * (100 - ars)
    - PROCESSING_PENALTY * processing_class)

/-- The clamp lands in [0, 100]. -/
theorem clamp100_mem (x : ℚ) : 0 ≤ clamp100 x ∧ clamp100 x ≤ 100 := by
  unfold clamp100
  exact ⟨le_max_left _ _, max_le (by norm_num) (min_le_left _ _)⟩

/-- C2: for every nutrition record, ingredient statistics and
processing class, the derived `nutrient_density_score`,
`additive_risk_score` and `overall_score` all lie in [0, 100]. -/
theorem scores_within_bounds (r : NutritionRecord) (severitySum : ℚ)
    (totalCount : ℕ) (pc : ℕ) :
    (0 ≤ nutrient_density_score r ∧ nutrient_density_score r ≤ 100) ∧
    (0 ≤ additive_risk_score severitySum totalCount ∧
      additive_risk_score severitySum totalCount ≤ 100) ∧
    (0 ≤ overall_score (nutrient_density_score r)
        (additive_risk_score severitySum totalCount) pc ∧
      overall_score (nutrient_density_score r)
        (additive_risk_score severitySum totalCount) pc ≤ 100) := by
  refine ⟨clamp100_mem _, ?_, clamp100_mem _⟩
  unfold additive_risk_score
  split
  · norm_num
  · exact clamp100_mem _

/-- Caloric density of protein (kcal per gram). -/
def PROTEIN_KCAL_PER_G : ℚ := 4

/-- Caloric density of carbohydrate (kcal per gram). -/
def CARB_KCAL_PER_G : ℚ := 4

/-- Caloric density of fat (kcal per gram). -/
def FAT_KCAL_PER_G : ℚ := 9

/-- Calories attributable to the protein grams. -/
def macroPcal (p : ℚ) : ℚ := PROTEIN_KCAL_PER_G * p

/-- Calories attributable to the carbohydrate grams. -/
def macroCcal (c : ℚ) : ℚ := CARB_KCAL_PER_G * c

/-- Calories attributable to the fat grams. -/
def macroFcal (f : ℚ) : ℚ := FAT_KCAL_PER_G * f

/-- Total macronutrient calories. -/
def macroTotal (p c f : ℚ) : ℚ := macroPcal p + macroCcal c + macroFcal f

/-- Rounded percentage share of one component's calories. -/
def sharePct (cal T : ℚ) : ℤ := round (100 * cal / T)

/-- The macronutrient balance percentages. -/
structure MacroBalance where
  protein_percent : ℤ
  carb_percent : ℤ
  fat_percent : ℤ
deriving DecidableEq, Repr

/-- Modelled from the spec: `macronutrient_balance` — the three
percentages of calories attributed via the fixed 4/4/9 caloric
densities; the two smaller components are rounded shares and the
rounding remainder is apportioned deterministically to the largest
component (ties broken protein first, then carbohydrate, then fat). -/
def macronutrient_balance (p c f : ℚ) : MacroBalance :=
  if macroTotal p c f ≤ 0 then ⟨0, 0, 0⟩
  else if macroCcal c ≤ macroPcal p ∧ macroFcal f ≤ macroPcal p then
    ⟨100 - sharePct (macroCcal c) (macroTotal p c f)
        - sharePct (macroFcal f) (macroTotal p c f),
      sharePct (macroCcal c) (macroTotal p c f),
      sharePct (macroFcal f) (macroTotal p c f)⟩
  else if macroFcal f ≤ macroCcal c then
    ⟨sharePct (macroPcal p) (macroTotal p c f),
      100 - sharePct (macroPcal p) (macroTotal p c f)
        - sharePct (macroFcal f) (macroTotal p c f),
      sharePct (macroFcal f) (macroTotal p c f)⟩
  else
    ⟨sharePct (macroPcal p) (macroTotal p c f),
      sharePct (macroCcal c) (macroTotal p c f),
      100 - sharePct (macroPcal p) (macroTotal p c f)
        - sharePct (macroCcal c) (macroTotal p c f)⟩

/-- A rounded share differs from the exact share by at most 1/2. -/
theorem sharePct_err (cal T : ℚ) :
    |((sharePct cal T : ℤ) : ℚ) - 100 * cal / T| ≤ 1 / 2 := by
  rw [abs_sub_comm]
  exact abs_sub_round _

/-- C5: whenever the macronutrient calories are positive, the
percentages computed from the fixed 4/4/9 caloric densities sum to
exactly 100, and each percentage differs from the exact caloric share
by at most one point (the two smaller components are rounded shares,
off by at most 1/2; the largest absorbs the remainder, off by at most
1). -/
theorem macronutrient_balance_sum (p c f : ℚ)
    (hT : 0 < macroTotal p c f) :
    (macronutrient_balance p c f).protein_percent +
      (macronutrient_balance p c f).carb_percent +
      (macronutrient_balance p c f).fat_percent = 100 ∧
    |(((macronutrient_balance p c f).protein_percent : ℤ) : ℚ) -
      100 * macroPcal p / macroTotal p c f| ≤ 1 ∧
    |(((macronutrient_balance p c f).carb_percent : ℤ) : ℚ) -
      100 * macroCcal c / macroTotal p c f| ≤ 1 ∧
    |(((macronutrient_balance p c f).fat_percent : ℤ) : ℚ) -
      100 * macroFcal f / macroTotal p c f| ≤ 1 := by
  have hT0 : macroTotal p c f ≠ 0 := ne_of_gt hT
  have hsum : 100 * macroPcal p / macroTotal p c f
      + 100 * macroCcal c / macroTotal p c f
      + 100 * macroFcal f / macroTotal p c f = 100 := by
    field_simp
    unfold macroTotal
    ring
  have hnle : ¬ macroTotal p c f ≤ 0 := not_le.mpr hT
  have herr := fun cal => sharePct_err cal (macroTotal p c f)
  unfold macronutrient_balance
  rw [if_neg hnle]
  split_ifs with hP hC
  · refine ⟨by push_cast; ring, ?_, ?_, ?_⟩
    · have : (((100 - sharePct (macroCcal c) (macroTotal p c f)
          - sharePct (macroFcal f) (macroTotal p c f) : ℤ)) : ℚ) -
          100 * macroPcal p / macroTotal p c f =
          (100 * macroCcal c / macroTotal p c f
            - ((sharePct (macroCcal c) (macroTotal p c f) : ℤ) : ℚ))
          + (100 * macroFcal f / macroTotal p c f
            - ((sharePct (macroFcal f) (macroTotal p c f) : ℤ) : ℚ)) := by
        push_cast
        linarith [hsum]
      calc |(((100 - sharePct (macroCcal c) (macroTotal p c f)
            - sharePct (macroFcal f) (macroTotal p c f) : ℤ)) : ℚ) -
            100 * macroPcal p / macroTotal p c f|
          ≤ 1 / 2 + 1 / 2 := by
            rw [this]
            refine le_trans (abs_add _ _) ?_
            gcongr
            · rw [abs_sub_comm]; exact herr _
            · rw [abs_sub_comm]; exact herr _
        _ = 1 := by norm_num
    · exact le_trans (herr _) (by norm_num)
    · exact le_trans (herr _) (by norm_num)
  · refine ⟨by push_cast; ring, ?_, ?_, ?_⟩
    · exact le_trans (herr _) (by norm_num)
    · have : (((100 - sharePct (macroPcal p) (macroTotal p c f)
          - sharePct (macroFcal f) (macroTotal p c f) : ℤ)) : ℚ) -
          100 * macroCcal c / macroTotal p c f =
          (100 * macroPcal p / macroTotal p c f
            - ((sharePct (macroPcal p) (macroTotal p c f) : ℤ) : ℚ))
          + (100 * macroFcal f / macroTotal p c f
            - ((sharePct (macroFcal f) (macroTotal p c f) : ℤ) : ℚ)) := by
        push_cast
        linarith [hsum]
      calc |(((100 - sharePct (macroPcal p) (macroTotal p c f)
            - sharePct (macroFcal f) (macroTotal p c f) : ℤ)) : ℚ) -
            100 * macroCcal c / macroTotal p c f|
          ≤ 1 / 2 + 1 / 2 := by
            rw [this]
            refine le_trans (abs_add _ _) ?_
            gcongr
            · rw [abs_sub_comm]; exact herr _
            · rw [abs_sub_comm]; exact herr _
        _ = 1 := by norm_num
    · exact le_trans (herr _) (by norm_num)
  · refine ⟨by push_cast; ring, ?_, ?_, ?_⟩
    · exact le_trans (herr _) (by norm_num)
    · exact le_trans (herr _) (by norm_num)
    · have : (((100 - sharePct (macroPcal p) (macroTotal p c f)
          - sharePct (macroCcal c) (macroTotal p c f) : ℤ)) : ℚ) -
          100 * macroFcal f / macroTotal p c f =
          (100 * macroPcal p / macroTotal p c f
            - ((sharePct (macroPcal p) (macroTotal p c f) : ℤ) : ℚ))
          + (100 * macroCcal c / macroTotal p c f
            - ((sharePct (macroCcal c) (macroTotal p c f) : ℤ) : ℚ)) := by
        push_cast
        linarith [hsum]
      calc |(((100 - sharePct (macroPcal p) (macroTotal p c f)
            - sharePct (macroCcal c) (macroTotal p c f) : ℤ)) : ℚ) -
            100 * macroFcal f / macroTotal p c f|
          ≤ 1 / 2 + 1 / 2 := by
            rw [this]
            refine le_trans (abs_add _ _) ?_
            gcongr
            · rw [abs_sub_comm]; exact herr _
            · rw [abs_sub_comm]; exact herr _
        _ = 1 := by norm_num

/-- Closed-form check of C5 on 3 g protein, 12 g carbs, 2 g fat
(78 macronutrient kcal): the three percentages sum to exactly 100. -/
theorem macronutrient_balance_sum_witness :
    0 < macroTotal 3 12 2 ∧
    (macronutrient_balance 3 12 2).protein_percent +
      (macronutrient_balance 3 12 2).carb_percent +
      (macronutrient_balance 3 12 2).fat_percent = 100 :=
  ⟨by norm_num [macroTotal, macroPcal, macroCcal, macroFcal,
      PROTEIN_KCAL_PER_G, CARB_KCAL_PER_G, FAT_KCAL_PER_G],
    (macronutrient_balance_sum 3 12 2
      (by norm_num [macroTotal, macroPcal, macroCcal, macroFcal,
        PROTEIN_KCAL_PER_G, CARB_KCAL_PER_G, FAT_KCAL_PER_G])).1⟩
